import Mathlib

/-!
Verification of the ZerePy server control plane (`src/server/app.py`).

The handlers and the `ServerState` lifecycle manager are embedded as pure
Lean functions.  A handler's `try ... except Exception as e` block is modelled
with `Except PyExc`; a FastAPI `HTTPException` raised inside such a block is an
ordinary `Exception` in Python and is therefore caught by the blanket handler,
which is modelled faithfully below.  Connections and the agent's
`perform_action` are external collaborators; they appear as function-valued
fields and parameters returning `Except`, so a raised exception is an
`Except.error` carrying its message.
-/

namespace ZerePy

/-- Response of a request handler: a success body, or an HTTP error with a
status code and a detail string (FastAPI renders the latter as a JSON body
with a single detail field). -/
inductive HResponse (α : Type) where
  | ok (body : α)
  | err (status : Nat) (detail : String)
deriving DecidableEq, Repr

/-- Status code of a response: some code for an error, none for success. -/
def HResponse.statusCode {α : Type} : HResponse α → Option Nat
  | .ok _ => none
  | .err s _ => some s

/-- An exception raised inside a handler's try block: either
a `fastapi.HTTPException` (which subclasses `Exception`, so a bare
`except Exception` catches it too) or any other exception with its message. -/
inductive PyExc where
  | http (status : Nat) (detail : String)
  | other (msg : String)
deriving DecidableEq, Repr

/-- Python `str(e)` applied to a caught exception: a starlette
`HTTPException` renders as its status code, a colon and the detail;
a plain exception renders as its message. -/
def excStr : PyExc → String
  | .http s d => toString s ++ ": " ++ d
  | .other m => m

/-- A connection, reduced to the capability contract the handlers use:
`is_configured(verbose)` and `configure(**params)` may raise (hence
`Except`), `is_llm_provider` is a fixed flag.  Parameters are modelled as
a string-keyed association list. -/
structure Connection where
  is_configured : Bool → Except String Bool
  is_llm_provider : Bool
  configure : List (String × String) → Except String Bool

/-- An agent: a name and its connection registry
(`agent.connection_manager.connections`), modelled as an association list. -/
structure Agent where
  name : String
  connections : List (String × Connection)

/-- Python `dict.get(name)` on the connection registry. -/
def connGet (conns : List (String × Connection)) (name : String) : Option Connection :=
  (conns.find? (fun p => p.1 == name)).map (fun p => p.2)

/-- `ServerState` from `app.py`: the resident agent (`cli.agent`), the
`agent_running` flag, the worker-thread handle (`agent_task`, a thread id
when one was started) and whether the stop event is set. -/
structure ServerState where
  agent : Option Agent
  agent_running : Bool
  agent_task : Option Nat
  stop_event : Bool

/-- Body of the success response of GET /connections/name/status. -/
structure StatusBody where
  name : String
  configured : Bool
  is_llm_provider : Bool
deriving DecidableEq, Repr

/-- The try block of the `connection_status` handler: looking up the name,
raising `HTTPException(404, ...)` when absent, otherwise querying
`is_configured(verbose=True)`. -/
def connectionStatusTry (a : Agent) (name : String) : Except PyExc StatusBody :=
  match connGet a.connections name with
  | none => .error (.http 404 ("Connection " ++ name ++ " not found"))
  | some conn =>
    match conn.is_configured true with
    | .error m => .error (.other m)
    | .ok b => .ok { name := name, configured := b, is_llm_provider := conn.is_llm_provider }

/-- GET /connections/name/status: 400 when no agent is loaded; otherwise the
try block runs and any exception it raises — the 404 `HTTPException`
included — is caught by `except Exception` and re-raised as
`HTTPException(500, str(e))`. -/
def connection_status (st : ServerState) (name : String) : HResponse StatusBody :=
  match st.agent with
  | none => .err 400 "No agent loaded"
  | some a =>
    match connectionStatusTry a name with
    | .ok body => .ok body
    | .error e => .err 500 (excStr e)

/-- The try block of the `configure_connection` handler: lookup, 404 raise
on a missing name, then `connection.configure(**params)`; a `False` result
raises `HTTPException(400, ...)` inside the same try block. -/
def configureConnectionTry (a : Agent) (name : String) (params : List (String × String)) :
    Except PyExc String :=
  match connGet a.connections name with
  | none => .error (.http 404 ("Connection " ++ name ++ " not found"))
  | some conn =>
    match conn.configure params with
    | .error m => .error (.other m)
    | .ok true => .ok ("Connection " ++ name ++ " configured successfully")
    | .ok false => .error (.http 400 ("Failed to configure " ++ name))

/-- POST /connections/name/configure: 400 when no agent is loaded; otherwise
the try block runs and any exception — the 404 and the 400 `HTTPException`
included — is caught by `except Exception` and re-raised as
`HTTPException(500, str(e))`. -/
def configure_connection (st : ServerState) (name : String)
    (params : List (String × String)) : HResponse String :=
  match st.agent with
  | none => .err 400 "No agent loaded"
  | some a =>
    match configureConnectionTry a name params with
    | .ok m => .ok m
    | .error e => .err 500 (excStr e)

/-- `ServerState.start_agent_loop`: raises `ValueError` when no agent is
loaded or when already running; otherwise sets `agent_running`, clears the
stop event and starts the worker thread (`tid` is the fresh thread handle). -/
def start_agent_loop (st : ServerState) (tid : Nat) : Except String ServerState :=
  if st.agent.isNone then .error "No agent loaded"
  else if st.agent_running then .error "Agent already running"
  else .ok { st with agent_running := true, stop_event := false, agent_task := some tid }

/-- POST /agent/start: 400 when no agent is loaded; otherwise
`start_agent_loop` runs, a raised `ValueError` becoming a 400 with the
message as detail. -/
def start_agent (st : ServerState) (tid : Nat) : HResponse String × ServerState :=
  if st.agent.isNone then (.err 400 "No agent loaded", st)
  else
    match start_agent_loop st tid with
    | .ok st2 => (.ok "Agent loop started", st2)
    | .error e => (.err 400 e, st)

/-- Time spent in `thread.join(timeout)`: the worker exits after
`workerExit` time units (`none` when it never acknowledges the stop
signal); the join returns after at most `timeout` units either way. -/
def joinWait (timeout : Nat) (workerExit : Option Nat) : Nat :=
  match workerExit with
  | some t => min t timeout
  | none => timeout

/-- `ServerState.stop_agent_loop`: when running, set the stop event, join
the worker with a 5-unit timeout and clear `agent_running` unconditionally;
when not running, do nothing.  Returns the new state and the time spent
waiting. -/
def stop_agent_loop (st : ServerState) (workerExit : Option Nat) : ServerState × Nat :=
  if st.agent_running then
    let waited := if st.agent_task.isSome then joinWait 5 workerExit else 0
    ({ st with stop_event := true, agent_running := false }, waited)
  else (st, 0)

/-- POST /agent/stop: runs `stop_agent_loop` and returns the success
envelope (the embedded `stop_agent_loop` raises nothing, so the handler's
except branch is unreachable). -/
def stop_agent (st : ServerState) (workerExit : Option Nat) : HResponse String × ServerState :=
  ((.ok "Agent loop stopped"), (stop_agent_loop st workerExit).1)

/-- Modelled from the spec: `ZerePyCLI._load_agent_from_file` lives in
`src/cli.py`, which is not part of this repository snapshot.  Per the spec
it resolves the name to an agent definition, constructs the Agent (which
will replace any previously loaded one) and fails on an unknown name; the
spec's Design Notes record that the source performs no lifecycle-state
check here. -/
def load_agent_from_file (defs : List (String × Agent)) (name : String) : Except String Agent :=
  match (defs.find? (fun p => p.1 == name)).map (fun p => p.2) with
  | some a => .ok a
  | none => .error ("Agent not found: " ++ name)

/-- POST /agents/name/load: runs `_load_agent_from_file` inside a try block
with no check of `agent_running`; success installs the new agent and
returns its name, an exception becomes a 400. -/
def load_agent (defs : List (String × Agent)) (st : ServerState) (name : String) :
    HResponse String × ServerState :=
  match load_agent_from_file defs name with
  | .ok a => (.ok name, { st with agent := some a })
  | .error e => (.err 400 e, st)

/-- POST /agent/action: 400 when no agent is loaded (raised before the try
block, so it reaches the client as a real 400); otherwise the agent's
`perform_action` — an external collaborator, passed in as `perform` — runs
inside the try block and any exception becomes a 400 with the message as
detail. -/
def agent_action (st : ServerState)
    (perform : Agent → String → String → List String → Except String String)
    (connection action : String) (params : List String) : HResponse String :=
  match st.agent with
  | none => .err 400 "No agent loaded"
  | some a =>
    match perform a connection action params with
    | .ok r => .ok r
    | .error e => .err 400 e

/-- Environment one iteration of `_run_agent_loop` runs in: the state of the
stop event at the top-of-loop `is_set()` check, whether `cli.agent` is truthy,
whether the iteration body raises, and whether `stop_event.wait(timeout=30)`
observes the stop signal during a backoff. -/
structure IterEnv where
  stopSet : Bool
  agentPresent : Bool
  fails : Bool
  stopDuringWait : Bool
deriving DecidableEq, Repr

/-- Observable events of the loop: a check of the stop event, the run of one
iteration body (failed or not), and a backoff wait of the given interval
recording whether the stop signal was observed during it. -/
inductive LoopEvent where
  | stopCheck (observedSet : Bool)
  | iterationRun (failed : Bool)
  | backoff (interval : Nat) (stopObserved : Bool)
deriving DecidableEq, Repr

/-- Why the loop left its while-loop: it observed the stop signal, or the
fuel (the supplied environment) ran out with the loop still going. -/
inductive LoopExit where
  | stopSignal
  | fuelExhausted
deriving DecidableEq, Repr

/-- `ServerState._run_agent_loop`, driven by one `IterEnv` per iteration:
`while not stop_event.is_set()`, then under `if cli.agent` the body runs; on
an exception the loop does `stop_event.wait(timeout=30)` and breaks when that
wait observes the stop signal, otherwise it retries.  Produces the event
trace and the exit cause. -/
def run_agent_loop : List IterEnv → List LoopEvent × LoopExit
  | [] => ([], .fuelExhausted)
  | e :: rest =>
    if e.stopSet then ([.stopCheck true], .stopSignal)
    else if e.agentPresent then
      if e.fails then
        if e.stopDuringWait then
          ([.stopCheck false, .iterationRun true, .backoff 30 true], .stopSignal)
        else
          let r := run_agent_loop rest
          (.stopCheck false :: .iterationRun true :: .backoff 30 false :: r.1, r.2)
      else
        let r := run_agent_loop rest
        (.stopCheck false :: .iterationRun false :: r.1, r.2)
    else
      let r := run_agent_loop rest
      (.stopCheck false :: r.1, r.2)

/-- Whether an event is an observation of the stop signal being set: a
top-of-loop check that found it set, or a backoff wait during which it was
set. -/
def LoopEvent.observesStop : LoopEvent → Bool
  | .stopCheck b => b
  | .backoff _ b => b
  | .iterationRun _ => false

/-- Whether an event consults the stop signal at all (every top-of-loop
check and every backoff wait does). -/
def LoopEvent.checksStop : LoopEvent → Bool
  | .stopCheck _ => true
  | .backoff _ _ => true
  | .iterationRun _ => false

/-- Whether the trace contains an observation of the stop signal. -/
def stopObserved (evs : List LoopEvent) : Bool :=
  evs.any (fun ev => ev.observesStop)

/-- Whether an event is an iteration-body run. -/
def LoopEvent.isIterationRun : LoopEvent → Bool
  | .iterationRun _ => true
  | _ => false

/-- Number of iteration bodies run in a trace. -/
def countIterations (evs : List LoopEvent) : Nat :=
  evs.countP (fun ev => ev.isIterationRun)

/-- Number of stop-signal consultations in a trace. -/
def countStopChecks (evs : List LoopEvent) : Nat :=
  evs.countP (fun ev => ev.checksStop)

/-- Python `pathlib.PurePath.stem`: the file name with its last suffix
removed, where a suffix is a final dot-segment whose dot is neither the
first nor the last character of the name. -/
def pyStem (name : String) : String :=
  let cs := name.toList
  match cs.reverse.indexOf? '.' with
  | some k => if 0 < k ∧ k < cs.length - 1 then String.mk (cs.take (cs.length - 1 - k)) else name
  | none => name

/-- GET /agents: the agents directory is `none` when it does not exist and
otherwise lists its entry names; the handler globs for names matching
`*.json` and collects each stem different from "general". -/
def list_agents (dir : Option (List String)) : List String :=
  match dir with
  | none => []
  | some files =>
    (files.filter (fun f => f.endsWith ".json")).foldl
      (fun acc f => if pyStem f != "general" then acc ++ [pyStem f] else acc) []

/-! Concrete fixtures used by the theorems and witnesses below. -/

/-- An agent with an empty connection registry. -/
def demoAgent : Agent := { name := "demo", connections := [] }

/-- A second agent definition, used to exercise agent replacement. -/
def otherAgent : Agent := { name := "other", connections := [] }

/-- Server state with `demoAgent` loaded and the loop idle. -/
def idleState : ServerState :=
  { agent := some demoAgent, agent_running := false, agent_task := none, stop_event := false }

/-- Server state with no agent loaded. -/
def unloadedState : ServerState :=
  { agent := none, agent_running := false, agent_task := none, stop_event := false }

/-- Server state with `demoAgent` loaded and the loop running. -/
def runningState : ServerState :=
  { agent := some demoAgent, agent_running := true, agent_task := some 1, stop_event := false }

/-- A connection whose `configure` returns `False` (a recoverable validation
failure per the capability contract). -/
def refusingConn : Connection :=
  { is_configured := fun _ => .ok false, is_llm_provider := false,
    configure := fun _ => .ok false }

/-- An agent owning the single connection "twitter" = `refusingConn`. -/
def cfgAgent : Agent := { name := "demo", connections := [("twitter", refusingConn)] }

/-- Server state with `cfgAgent` loaded and the loop idle. -/
def cfgState : ServerState :=
  { agent := some cfgAgent, agent_running := false, agent_task := none, stop_event := false }

/-- C1: with an agent loaded and an unknown connection name, the try blocks of
GET /connections/name/status and POST /connections/name/configure do raise the
404 `HTTPException` naming the connection, but both handlers' blanket
`except Exception` re-wraps it, so the client receives HTTP 500, not the 404
the claim states. -/
theorem unknown_connection_yields_500 :
    connectionStatusTry demoAgent "twitter"
      = .error (.http 404 "Connection twitter not found") ∧
    (connection_status idleState "twitter").statusCode = some 500 ∧
    configureConnectionTry demoAgent "twitter" []
      = .error (.http 404 "Connection twitter not found") ∧
    (configure_connection idleState "twitter" []).statusCode = some 500 :=
  ⟨rfl, rfl, rfl, rfl⟩

/-- C2: with an agent loaded, the connection present and `configure`
returning `False`, the try block raises the 400 `HTTPException`, but the
handler's blanket `except Exception` re-wraps it, so the client receives
HTTP 500, not the 400 client error the claim states. -/
theorem configure_false_yields_500 :
    configureConnectionTry cfgAgent "twitter" []
      = .error (.http 400 "Failed to configure twitter") ∧
    (configure_connection cfgState "twitter" []).statusCode = some 500 :=
  ⟨rfl, rfl⟩

/-- C3: a successful POST /agent/start leaves the loop running, and a second
start on the resulting state fails with HTTP 400 "Agent already running"
rather than succeeding: two consecutive successful starts without a stop are
impossible. -/
theorem start_twice_fails (st : ServerState) (tid tid2 : Nat)
    (h : (start_agent st tid).1 = .ok "Agent loop started") :
    ((start_agent st tid).2).agent_running = true ∧
    (start_agent ((start_agent st tid).2) tid2).1 = .err 400 "Agent already running" ∧
    ∀ msg, (start_agent ((start_agent st tid).2) tid2).1 ≠ HResponse.ok msg := by
  by_cases hn : st.agent.isNone
  · simp [start_agent, hn] at h
  · by_cases hr : st.agent_running
    · simp [start_agent, start_agent_loop, hn, hr] at h
    · simp [start_agent, start_agent_loop, hn, hr]

theorem start_twice_fails_witness :
    (start_agent idleState 1).1 = HResponse.ok "Agent loop started" ∧
    (((start_agent idleState 1).2).agent_running = true ∧
     (start_agent ((start_agent idleState 1).2) 2).1
        = HResponse.err 400 "Agent already running" ∧
     ∀ msg, (start_agent ((start_agent idleState 1).2) 2).1 ≠ HResponse.ok msg) :=
  ⟨rfl, start_twice_fails idleState 1 2 rfl⟩

/-- C4: for every state and every worker behavior — including a worker that
never acknowledges the stop signal — `stop_agent_loop` leaves
`agent_running` false, and the time spent waiting on the join is bounded by
the 5-unit timeout. -/
theorem stop_loop_always_idle_and_bounded (st : ServerState) (workerExit : Option Nat) :
    ((stop_agent_loop st workerExit).1).agent_running = false ∧
    (stop_agent_loop st workerExit).2 ≤ 5 := by
  cases hr : st.agent_running with
  | false => simp [stop_agent_loop, hr]
  | true =>
    refine ⟨by simp [stop_agent_loop, hr], ?_⟩
    simp only [stop_agent_loop, hr, if_true]
    by_cases ht : st.agent_task.isSome
    · cases workerExit with
      | none => simp [ht, joinWait]
      | some t => simp [ht, joinWait]
    · simp [ht]

/-- C5: when the loop is not running, POST /agent/stop is a no-op success:
`stop_agent_loop` returns the state unchanged (stop event and worker handle
included) after zero wait, and the route returns the success envelope. -/
theorem stop_idle_noop (st : ServerState) (workerExit : Option Nat)
    (h : st.agent_running = false) :
    stop_agent st workerExit = (.ok "Agent loop stopped", st) ∧
    stop_agent_loop st workerExit = (st, 0) := by
  have h2 : stop_agent_loop st workerExit = (st, 0) := by simp [stop_agent_loop, h]
  exact ⟨by simp [stop_agent, h2], h2⟩

theorem stop_idle_noop_witness :
    idleState.agent_running = false ∧
    (stop_agent idleState none = (HResponse.ok "Agent loop stopped", idleState) ∧
     stop_agent_loop idleState none = (idleState, 0)) :=
  ⟨rfl, stop_idle_noop idleState none rfl⟩

/-- C6: with the loop Running, POST /agents/name/load performs no lifecycle
check: at this concrete running state it succeeds and replaces the resident
agent instead of failing with InvalidStateError as the claim states. -/
theorem load_while_running_succeeds :
    runningState.agent_running = true ∧
    (load_agent [("other", otherAgent)] runningState "other").1 = HResponse.ok "other" ∧
    ((load_agent [("other", otherAgent)] runningState "other").2).agent = some otherAgent ∧
    ((load_agent [("other", otherAgent)] runningState "other").2).agent_running = true :=
  ⟨rfl, rfl, rfl, rfl⟩

/-- C7: with no agent loaded, POST /agent/action returns HTTP 400 with
detail "No agent loaded", and the response is independent of the agent's
`perform_action` — no connection is invoked. -/
theorem action_no_agent_400 (st : ServerState)
    (perform perform2 : Agent → String → String → List String → Except String String)
    (connection action : String) (params : List String)
    (h : st.agent = none) :
    agent_action st perform connection action params
      = .err 400 "No agent loaded" ∧
    agent_action st perform connection action params
      = agent_action st perform2 connection action params := by
  simp [agent_action, h]

theorem action_no_agent_400_witness :
    unloadedState.agent = none ∧
    (agent_action unloadedState (fun _ _ _ _ => Except.ok "done") "twitter" "post-tweet" []
        = HResponse.err 400 "No agent loaded" ∧
     agent_action unloadedState (fun _ _ _ _ => Except.ok "done") "twitter" "post-tweet" []
        = agent_action unloadedState (fun _ _ _ _ => Except.error "boom")
            "twitter" "post-tweet" []) :=
  ⟨rfl, action_no_agent_400 unloadedState (fun _ _ _ _ => Except.ok "done")
    (fun _ _ _ _ => Except.error "boom") "twitter" "post-tweet" [] rfl⟩

/-- C9: with an agent loaded, every failure of `perform_action` — whatever
its cause, an unknown connection name included — is returned as HTTP 400
with the exception's message as the detail, and every error this handler
can produce carries status 400 (never 404 or 500). -/
theorem action_failure_maps_to_400 (st : ServerState) (a : Agent)
    (perform : Agent → String → String → List String → Except String String)
    (connection action : String) (params : List String) (msg : String)
    (hA : st.agent = some a) (hE : perform a connection action params = .error msg) :
    agent_action st perform connection action params = .err 400 msg ∧
    ∀ s d, agent_action st perform connection action params = HResponse.err s d →
      s = 400 := by
  have h1 : agent_action st perform connection action params = .err 400 msg := by
    simp [agent_action, hA, hE]
  refine ⟨h1, ?_⟩
  intro s d hsd
  rw [h1] at hsd
  injection hsd with h2 h3
  exact h2.symm

theorem action_failure_maps_to_400_witness :
    idleState.agent = some demoAgent ∧
    (agent_action idleState (fun _ _ _ _ => Except.error "Connection goat not found")
        "goat" "post-tweet" [] = HResponse.err 400 "Connection goat not found" ∧
     ∀ s d, agent_action idleState (fun _ _ _ _ => Except.error "Connection goat not found")
        "goat" "post-tweet" [] = HResponse.err s d → s = 400) :=
  ⟨rfl, action_failure_maps_to_400 idleState demoAgent
    (fun _ _ _ _ => Except.error "Connection goat not found")
    "goat" "post-tweet" [] "Connection goat not found" rfl rfl⟩

theorem foldl_append_eq_filter (p : String → Bool) (g : String → String) :
    ∀ (l acc : List String),
      l.foldl (fun acc f => if p (g f) then acc ++ [g f] else acc) acc
        = acc ++ (l.map g).filter p
  | [], acc => by simp
  | f :: l, acc => by
    simp only [List.foldl_cons, List.map_cons, List.filter_cons]
    by_cases h : p (g f) = true
    · rw [if_pos h, if_pos h, foldl_append_eq_filter p g l (acc ++ [g f])]
      simp
    · rw [if_neg h, if_neg h, foldl_append_eq_filter p g l acc]

/-- C10: GET /agents returns exactly the stems of the `*.json` entries of
the agents directory with the stem "general" excluded; "general" is never
listed, and a missing directory yields the empty list rather than an
error. -/
theorem list_agents_spec :
    list_agents none = [] ∧
    (∀ files, list_agents (some files) =
      ((files.filter (fun f => f.endsWith ".json")).map pyStem).filter
        (fun s => s != "general")) ∧
    (∀ files, "general" ∉ list_agents (some files)) := by
  have key : ∀ files, list_agents (some files) =
      ((files.filter (fun f => f.endsWith ".json")).map pyStem).filter
        (fun s => s != "general") := by
    intro files
    have h0 := foldl_append_eq_filter (fun s => s != "general") pyStem
      (files.filter (fun f => f.endsWith ".json")) []
    rw [List.nil_append] at h0
    exact h0
  refine ⟨rfl, key, ?_⟩
  intro files h
  rw [key files] at h
  simp [List.mem_filter] at h

theorem run_loop_exit_iff (env : List IterEnv) :
    (run_agent_loop env).2 = LoopExit.stopSignal ↔
      stopObserved (run_agent_loop env).1 = true := by
  induction env with
  | nil => simp [run_agent_loop, stopObserved]
  | cons e rest ih =>
    obtain ⟨s, ap, fl, sw⟩ := e
    cases s <;> cases ap <;> cases fl <;> cases sw <;>
      simp_all [run_agent_loop, stopObserved, LoopEvent.observesStop]

theorem run_loop_checks_ge (env : List IterEnv) :
    countIterations (run_agent_loop env).1 ≤ countStopChecks (run_agent_loop env).1 := by
  induction env with
  | nil => simp [run_agent_loop, countIterations, countStopChecks]
  | cons e rest ih =>
    obtain ⟨s, ap, fl, sw⟩ := e
    cases s <;> cases ap <;> cases fl <;> cases sw <;>
      simp_all [run_agent_loop, countIterations, countStopChecks,
        LoopEvent.isIterationRun, LoopEvent.checksStop, List.countP_cons] <;>
      omega

/-- C8: the loop exits via the stop signal exactly when some stop check (a
top-of-loop check or a backoff wait) observed the signal set; the signal is
consulted at least once per iteration run; and a failing iteration with the
signal still unset backs off for the fixed 30-unit interval and then retries
— the loop's exit is whatever the remaining iterations decide, so a failure
alone never terminates it. -/
theorem loop_stop_and_backoff (env : List IterEnv) :
    ((run_agent_loop env).2 = LoopExit.stopSignal ↔
      stopObserved (run_agent_loop env).1 = true) ∧
    countIterations (run_agent_loop env).1 ≤ countStopChecks (run_agent_loop env).1 ∧
    (∀ e rest, env = e :: rest → e.stopSet = false → e.agentPresent = true →
      e.fails = true → e.stopDuringWait = false →
      LoopEvent.backoff 30 false ∈ (run_agent_loop env).1 ∧
      (run_agent_loop env).2 = (run_agent_loop rest).2) := by
  refine ⟨run_loop_exit_iff env, run_loop_checks_ge env, ?_⟩
  rintro ⟨s, ap, fl, sw⟩ rest rfl hs hap hf hw
  simp only at hs hap hf hw
  subst hs hap hf hw
  simp [run_agent_loop]

theorem loop_stop_and_backoff_witness :
    ((run_agent_loop [⟨false, true, true, false⟩]).2 = LoopExit.stopSignal ↔
      stopObserved (run_agent_loop [⟨false, true, true, false⟩]).1 = true) ∧
    countIterations (run_agent_loop [⟨false, true, true, false⟩]).1
      ≤ countStopChecks (run_agent_loop [⟨false, true, true, false⟩]).1 ∧
    (∀ e rest, [(⟨false, true, true, false⟩ : IterEnv)] = e :: rest →
      e.stopSet = false → e.agentPresent = true →
      e.fails = true → e.stopDuringWait = false →
      LoopEvent.backoff 30 false ∈ (run_agent_loop [⟨false, true, true, false⟩]).1 ∧
      (run_agent_loop [⟨false, true, true, false⟩]).2 = (run_agent_loop rest).2) :=
  loop_stop_and_backoff [⟨false, true, true, false⟩]

end ZerePy
